import Mathlib

/-!
Verification of the joint-constraint and collision-shape description layer of
the `zelda_javascript` repository (rapier3d joint declarations in
`src/unnamed/part_000`, shape declarations in
`src/node_modules/@dimforge/rapier3d/geometry/shape.d.ts`).

Numbers are modelled as rationals (`ℚ`): the TypeScript surface uses IEEE
doubles, but every property checked here is exact field transport, so the
rational model is faithful to the logical field mapping.

All definitions live in the `Rapier` namespace to mirror the library and to
avoid clashing with Mathlib names.
-/

namespace Rapier

/-- A 3D vector, the `Vector` type of `../math` used by both declaration
files. Components are modelled as rationals. -/
structure Vector where
  x : ℚ
  y : ℚ
  z : ℚ
deriving DecidableEq, Repr

/-- The zero vector, the neutral default for unused anchors, axes and
tangents. -/
def Vector.zero : Vector := ⟨0, 0, 0⟩

/-- Euclidean dot product of two vectors. -/
def Vector.dot (a b : Vector) : ℚ := a.x * b.x + a.y * b.y + a.z * b.z

/-- A rotation quaternion, the `Rotation` type of `../math`. -/
structure Rotation where
  x : ℚ
  y : ℚ
  z : ℚ
  w : ℚ
deriving DecidableEq, Repr

/-- The identity rotation, the neutral default for unused frames. -/
def Rotation.identity : Rotation := ⟨0, 0, 0, 1⟩

/-- The error taxonomy of the subsystem (spec §7): `InvalidGeometry`,
`StaleHandle`, `DegenerateBasis`. -/
inductive PhysicsError where
  | InvalidGeometry
  | StaleHandle
  | DegenerateBasis
deriving DecidableEq, Repr

/-- `JointType` (src/unnamed/part_000 lines 17-22) is a TypeScript numeric
enum; its runtime values are numbers, so the embedding is `ℕ`. -/
abbrev JointType := ℕ

/-- `JointType.Ball = 0`. -/
def JointType.Ball : JointType := 0

/-- `JointType.Fixed = 1`. -/
def JointType.Fixed : JointType := 1

/-- `JointType.Prismatic = 2`. -/
def JointType.Prismatic : JointType := 2

/-- `JointType.Revolute = 3`. -/
def JointType.Revolute : JointType := 3

/-- The `JointParams` descriptor class (src/unnamed/part_000 lines 99-111):
a single record with a `jointType` discriminant and a superset of fields.
All eleven fields are declared public in the source. -/
structure JointParams where
  anchor1 : Vector
  anchor2 : Vector
  axis1 : Vector
  axis2 : Vector
  tangent1 : Vector
  tangent2 : Vector
  frame1 : Rotation
  frame2 : Rotation
  jointType : JointType
  limitsEnabled : Bool
  limits : List ℚ
deriving DecidableEq, Repr

/-- Modelled from the spec: the body of the private `JointParams`
constructor is not under `src/` (the file only declares it). Spec §4.2: all
descriptor fields not set by a named constructor hold neutral defaults -
zero vectors, identity rotation, limits disabled. -/
def JointParams.neutral : JointParams :=
  ⟨Vector.zero, Vector.zero, Vector.zero, Vector.zero, Vector.zero, Vector.zero,
   Rotation.identity, Rotation.identity, JointType.Ball, false, []⟩

/-- Modelled from the spec: the body of `JointParams.ball` is not under
`src/` (only its declaration, lines 112-124). Spec §4.2: `ball(anchor1,
anchor2)` packages the two anchors, tags the descriptor `Ball`, and leaves
every other field at its neutral default. -/
def JointParams.ball (anchor1 anchor2 : Vector) : JointParams :=
  { JointParams.neutral with
      anchor1 := anchor1, anchor2 := anchor2, jointType := JointType.Ball }

/-- Modelled from the spec: the body of `JointParams.fixed` is not under
`src/` (only its declaration, lines 125-138). Spec §4.2: `fixed(anchor1,
frame1, anchor2, frame2)` packages the anchors and frames, tags the
descriptor `Fixed`, and leaves every other field neutral. -/
def JointParams.fixed (anchor1 : Vector) (frame1 : Rotation)
    (anchor2 : Vector) (frame2 : Rotation) : JointParams :=
  { JointParams.neutral with
      anchor1 := anchor1, frame1 := frame1, anchor2 := anchor2, frame2 := frame2,
      jointType := JointType.Fixed }

/-- Modelled from the spec: the body of `JointParams.prismatic` is not under
`src/` (only its declaration, lines 139-158). Spec §4.2: `prismatic(anchor1,
axis1, tangent1, anchor2, axis2, tangent2)` packages anchors, axes and
tangents, tags the descriptor `Prismatic`, and leaves every other field
neutral. -/
def JointParams.prismatic (anchor1 axis1 tangent1 anchor2 axis2 tangent2 : Vector) :
    JointParams :=
  { JointParams.neutral with
      anchor1 := anchor1, axis1 := axis1, tangent1 := tangent1,
      anchor2 := anchor2, axis2 := axis2, tangent2 := tangent2,
      jointType := JointType.Prismatic }

/-- Modelled from the spec: the body of `JointParams.revolute` is not under
`src/` (only its declaration, lines 159-172). Spec §4.2: `revolute(anchor1,
axis1, anchor2, axis2)` packages anchors and axes, tags the descriptor
`Revolute`, and leaves every other field neutral. -/
def JointParams.revolute (anchor1 axis1 anchor2 axis2 : Vector) : JointParams :=
  { JointParams.neutral with
      anchor1 := anchor1, axis1 := axis1, anchor2 := anchor2, axis2 := axis2,
      jointType := JointType.Revolute }

/-- TypeScript assignment to the public mutable field `limits`
(src/unnamed/part_000 line 110): a plain property store, no validation. -/
def JointParams.setLimitsField (p : JointParams) (l : List ℚ) : JointParams :=
  { p with limits := l }

/-- TypeScript assignment to the public mutable field `limitsEnabled`
(src/unnamed/part_000 line 109): a plain property store, no validation. -/
def JointParams.setLimitsEnabledField (p : JointParams) (b : Bool) : JointParams :=
  { p with limitsEnabled := b }

/-- The descriptors obtainable through the public interface of
`JointParams`: the constructor is private, so the only producers are the
four static constructors (src/unnamed/part_000 lines 111-172). -/
inductive JointParams.Reachable : JointParams → Prop where
  | ball (a1 a2 : Vector) : JointParams.Reachable (JointParams.ball a1 a2)
  | fixed (a1 : Vector) (f1 : Rotation) (a2 : Vector) (f2 : Rotation) :
      JointParams.Reachable (JointParams.fixed a1 f1 a2 f2)
  | prismatic (a1 ax1 t1 a2 ax2 t2 : Vector) :
      JointParams.Reachable (JointParams.prismatic a1 ax1 t1 a2 ax2 t2)
  | revolute (a1 ax1 a2 ax2 : Vector) :
      JointParams.Reachable (JointParams.revolute a1 ax1 a2 ax2)

/-- `JointHandle` (src/unnamed/part_000 line 7): an integer identifier. -/
abbrev JointHandle := ℕ

/-- `RigidBodyHandle` (imported from `./rigid_body`): an integer identifier. -/
abbrev RigidBodyHandle := ℕ

/-- The native joint entry stored in the backing set: the data each `Joint`
accessor projects (src/unnamed/part_000 lines 31-97). -/
structure RawJoint where
  bodyHandle1 : RigidBodyHandle
  bodyHandle2 : RigidBodyHandle
  jointType : JointType
  frameX1 : Rotation
  frameX2 : Rotation
  anchor1 : Vector
  anchor2 : Vector
  axis1 : Vector
  axis2 : Vector
  limitsEnabled : Bool
  limitsMin : ℚ
  limitsMax : ℚ
deriving DecidableEq, Repr

/-- Modelled from the spec: the `RawJointSet` backing store is native code
absent from `src/`. Spec §4.3: an integer-keyed store mapping handles to
live entries; modelled as an association list. -/
structure RawJointSet where
  entries : List (JointHandle × RawJoint)
deriving DecidableEq, Repr

/-- Handle lookup in the backing store. -/
def RawJointSet.lookup (s : RawJointSet) (h : JointHandle) : Option RawJoint :=
  s.entries.lookup h

/-- Does the handle still resolve in the backing store? -/
def RawJointSet.contains (s : RawJointSet) (h : JointHandle) : Bool :=
  (s.lookup h).isSome

/-- Removal of a joint's backing entry from the store. -/
def RawJointSet.remove (s : RawJointSet) (h : JointHandle) : RawJointSet :=
  ⟨s.entries.filter (fun e => e.1 != h)⟩

/-- The live `Joint` wrapper (src/unnamed/part_000 lines 23-26): a handle
plus a reference to the backing set. The shared mutable set is passed
explicitly to each accessor as state. -/
structure Joint where
  handle : JointHandle
deriving DecidableEq, Repr

/-- `Joint.isValid` (src/unnamed/part_000 line 31): checks that the joint
has not been deleted from the joint set yet. -/
def Joint.isValid (s : RawJointSet) (j : Joint) : Bool :=
  s.contains j.handle

/-- Modelled from the spec: accessor bodies are not under `src/` (the file
only declares them). Spec §4.2/§7: an accessor on a handle whose backing
entry was removed fails with `StaleHandle` rather than returning stale or
default data; a live handle reads its entry. -/
def Joint.resolve (s : RawJointSet) (j : Joint) : Except PhysicsError RawJoint :=
  match s.lookup j.handle with
  | some d => .ok d
  | none => .error .StaleHandle

/-- `Joint.bodyHandle1` accessor (line 35). -/
def Joint.bodyHandle1 (s : RawJointSet) (j : Joint) : Except PhysicsError RigidBodyHandle :=
  (j.resolve s).map RawJoint.bodyHandle1

/-- `Joint.bodyHandle2` accessor (line 39). -/
def Joint.bodyHandle2 (s : RawJointSet) (j : Joint) : Except PhysicsError RigidBodyHandle :=
  (j.resolve s).map RawJoint.bodyHandle2

/-- `Joint.type` accessor (line 43). -/
def Joint.type (s : RawJointSet) (j : Joint) : Except PhysicsError JointType :=
  (j.resolve s).map RawJoint.jointType

/-- `Joint.frameX1` accessor (line 47). -/
def Joint.frameX1 (s : RawJointSet) (j : Joint) : Except PhysicsError Rotation :=
  (j.resolve s).map RawJoint.frameX1

/-- `Joint.frameX2` accessor (line 51). -/
def Joint.frameX2 (s : RawJointSet) (j : Joint) : Except PhysicsError Rotation :=
  (j.resolve s).map RawJoint.frameX2

/-- `Joint.anchor1` accessor (line 58). -/
def Joint.anchor1 (s : RawJointSet) (j : Joint) : Except PhysicsError Vector :=
  (j.resolve s).map RawJoint.anchor1

/-- `Joint.anchor2` accessor (line 65). -/
def Joint.anchor2 (s : RawJointSet) (j : Joint) : Except PhysicsError Vector :=
  (j.resolve s).map RawJoint.anchor2

/-- `Joint.axis1` accessor (line 73). -/
def Joint.axis1 (s : RawJointSet) (j : Joint) : Except PhysicsError Vector :=
  (j.resolve s).map RawJoint.axis1

/-- `Joint.axis2` accessor (line 81). -/
def Joint.axis2 (s : RawJointSet) (j : Joint) : Except PhysicsError Vector :=
  (j.resolve s).map RawJoint.axis2

/-- `Joint.limitsEnabled` accessor (line 85). -/
def Joint.limitsEnabled (s : RawJointSet) (j : Joint) : Except PhysicsError Bool :=
  (j.resolve s).map RawJoint.limitsEnabled

/-- `Joint.limitsMin` accessor (line 91). -/
def Joint.limitsMin (s : RawJointSet) (j : Joint) : Except PhysicsError ℚ :=
  (j.resolve s).map RawJoint.limitsMin

/-- `Joint.limitsMax` accessor (line 97). -/
def Joint.limitsMax (s : RawJointSet) (j : Joint) : Except PhysicsError ℚ :=
  (j.resolve s).map RawJoint.limitsMax

/-- The sixteen shape classes declared in
`src/node_modules/@dimforge/rapier3d/geometry/shape.d.ts`. -/
inductive ShapeClass where
  | Ball
  | Cuboid
  | RoundCuboid
  | Capsule
  | Segment
  | Triangle
  | RoundTriangle
  | Polyline
  | TriMesh
  | ConvexPolyhedron
  | RoundConvexPolyhedron
  | Heightfield
  | Cylinder
  | RoundCylinder
  | Cone
  | RoundCone
deriving DecidableEq, Repr

/-- The members of the `Shape` union type as declared on line 6 of
`shape.d.ts`, in source order: `Ball | Cuboid | Capsule | Segment |
Triangle | TriMesh | Heightfield | ConvexPolyhedron | Cylinder | Cone |
RoundCuboid | RoundCylinder | RoundCone | RoundConvexPolyhedron`. -/
def shapeUnionMembers : List ShapeClass :=
  [.Ball, .Cuboid, .Capsule, .Segment, .Triangle, .TriMesh, .Heightfield,
   .ConvexPolyhedron, .Cylinder, .Cone, .RoundCuboid, .RoundCylinder,
   .RoundCone, .RoundConvexPolyhedron]

/-- The sixteen variants the spec's data model lists for the `Shape` tagged
union (spec §3). This definition follows the spec's words, to be compared
with `shapeUnionMembers`, which follows the source. -/
def specShapeVariants : List ShapeClass :=
  [.Ball, .Cuboid, .RoundCuboid, .Capsule, .Segment, .Triangle, .RoundTriangle,
   .Polyline, .TriMesh, .ConvexPolyhedron, .RoundConvexPolyhedron, .Heightfield,
   .Cylinder, .RoundCylinder, .Cone, .RoundCone]

/-- The `ShapeType` numeric enum of `shape.d.ts` lines 10-27, with each
member's numeric value. -/
def shapeTypeEnum : List (ShapeClass × ℕ) :=
  [(.Ball, 0), (.Cuboid, 1), (.Capsule, 2), (.Segment, 3), (.Polyline, 4),
   (.Triangle, 5), (.TriMesh, 6), (.Heightfield, 7), (.ConvexPolyhedron, 9),
   (.Cylinder, 10), (.Cone, 11), (.RoundCuboid, 12), (.RoundTriangle, 13),
   (.RoundCylinder, 14), (.RoundCone, 15), (.RoundConvexPolyhedron, 16)]

/-- The `Ball` shape (`shape.d.ts` lines 31-42). -/
structure Ball where
  radius : ℚ
deriving DecidableEq, Repr

/-- `new Ball(radius)`. -/
def Ball.make (radius : ℚ) : Ball := ⟨radius⟩

/-- The `Cuboid` shape (`shape.d.ts` lines 46-59): half extents along each
coordinate axis. -/
structure Cuboid where
  halfExtents : Vector
deriving DecidableEq, Repr

/-- `new Cuboid(hx, hy, hz)`. -/
def Cuboid.make (hx hy hz : ℚ) : Cuboid := ⟨⟨hx, hy, hz⟩⟩

/-- The `RoundCuboid` shape (`shape.d.ts` lines 63-82). -/
structure RoundCuboid where
  halfExtents : Vector
  borderRadius : ℚ
deriving DecidableEq, Repr

/-- `new RoundCuboid(hx, hy, hz, borderRadius)`. -/
def RoundCuboid.make (hx hy hz borderRadius : ℚ) : RoundCuboid :=
  ⟨⟨hx, hy, hz⟩, borderRadius⟩

/-- The `Capsule` shape (`shape.d.ts` lines 86-102). Field order in the
source declaration: `radius`, then `halfHeight`. -/
structure Capsule where
  radius : ℚ
  halfHeight : ℚ
deriving DecidableEq, Repr

/-- `new Capsule(halfHeight, radius)` (`shape.d.ts` line 100): the
constructor takes `halfHeight` first, `radius` second. -/
def Capsule.make (halfHeight radius : ℚ) : Capsule := ⟨radius, halfHeight⟩

/-- The `Segment` shape (`shape.d.ts` lines 106-122). -/
structure Segment where
  a : Vector
  b : Vector
deriving DecidableEq, Repr

/-- `new Segment(a, b)`. -/
def Segment.make (a b : Vector) : Segment := ⟨a, b⟩

/-- The `Triangle` shape (`shape.d.ts` lines 126-148). -/
structure Triangle where
  a : Vector
  b : Vector
  c : Vector
deriving DecidableEq, Repr

/-- `new Triangle(a, b, c)`. -/
def Triangle.make (a b c : Vector) : Triangle := ⟨a, b, c⟩

/-- The `RoundTriangle` shape (`shape.d.ts` lines 152-181). -/
structure RoundTriangle where
  a : Vector
  b : Vector
  c : Vector
  borderRadius : ℚ
deriving DecidableEq, Repr

/-- `new RoundTriangle(a, b, c, borderRadius)`. -/
def RoundTriangle.make (a b c : Vector) (borderRadius : ℚ) : RoundTriangle :=
  ⟨a, b, c, borderRadius⟩

/-- The `Polyline` shape (`shape.d.ts` lines 185-203): a flat vertex buffer
and a segment index buffer. -/
structure Polyline where
  vertices : List ℚ
  indices : List ℕ
deriving DecidableEq, Repr

/-- The `TriMesh` shape (`shape.d.ts` lines 207-224): a flat vertex buffer
and a triangle index buffer. -/
structure TriMesh where
  vertices : List ℚ
  indices : List ℕ
deriving DecidableEq, Repr

/-- The `ConvexPolyhedron` shape (`shape.d.ts` lines 228-248): vertices and
an optional index buffer; a `null` index buffer asks the engine to compute
the convex hull of the vertices. Vertices are modelled as points. -/
structure ConvexPolyhedron where
  vertices : List Vector
  indices : Option (List ℕ)
deriving DecidableEq, Repr

/-- The `RoundConvexPolyhedron` shape (`shape.d.ts` lines 252-277). -/
structure RoundConvexPolyhedron where
  vertices : List Vector
  indices : Option (List ℕ)
  borderRadius : ℚ
deriving DecidableEq, Repr

/-- The `Heightfield` shape (`shape.d.ts` lines 281-310): a heights matrix
in column-major order with its `x,z` scale. -/
structure Heightfield where
  nrows : ℕ
  ncols : ℕ
  heights : List ℚ
  scale : Vector
deriving DecidableEq, Repr

/-- The `Cylinder` shape (`shape.d.ts` lines 314-330). Field order in the
source declaration: `radius`, then `halfHeight`. -/
structure Cylinder where
  radius : ℚ
  halfHeight : ℚ
deriving DecidableEq, Repr

/-- `new Cylinder(halfHeight, radius)` (`shape.d.ts` line 328): the
constructor takes `halfHeight` first, `radius` second. -/
def Cylinder.make (halfHeight radius : ℚ) : Cylinder := ⟨radius, halfHeight⟩

/-- The `RoundCylinder` shape (`shape.d.ts` lines 334-355). -/
structure RoundCylinder where
  radius : ℚ
  halfHeight : ℚ
  borderRadius : ℚ
deriving DecidableEq, Repr

/-- `new RoundCylinder(halfHeight, radius, borderRadius)` (`shape.d.ts`
line 353). -/
def RoundCylinder.make (halfHeight radius borderRadius : ℚ) : RoundCylinder :=
  ⟨radius, halfHeight, borderRadius⟩

/-- The `Cone` shape (`shape.d.ts` lines 359-375). Field order in the
source declaration: `radius`, then `halfHeight`. -/
structure Cone where
  radius : ℚ
  halfHeight : ℚ
deriving DecidableEq, Repr

/-- `new Cone(halfHeight, radius)` (`shape.d.ts` line 373): the constructor
takes `halfHeight` first, `radius` second. -/
def Cone.make (halfHeight radius : ℚ) : Cone := ⟨radius, halfHeight⟩

/-- The `RoundCone` shape (`shape.d.ts` lines 379-400). -/
structure RoundCone where
  radius : ℚ
  halfHeight : ℚ
  borderRadius : ℚ
deriving DecidableEq, Repr

/-- `new RoundCone(halfHeight, radius, borderRadius)` (`shape.d.ts`
line 398). -/
def RoundCone.make (halfHeight radius borderRadius : ℚ) : RoundCone :=
  ⟨radius, halfHeight, borderRadius⟩

/-- Signed volume test: six times the signed volume of the tetrahedron
`(p, q, r, s)`. Positive when `s` lies on the positive side of the oriented
plane through `p`, `q`, `r`. -/
def orient3d (p q r s : Vector) : ℚ :=
  let u : Vector := ⟨q.x - p.x, q.y - p.y, q.z - p.z⟩
  let v : Vector := ⟨r.x - p.x, r.y - p.y, r.z - p.z⟩
  let w : Vector := ⟨s.x - p.x, s.y - p.y, s.z - p.z⟩
  u.x * (v.y * w.z - v.z * w.y) - u.y * (v.x * w.z - v.z * w.x)
    + u.z * (v.x * w.y - v.y * w.x)

/-- Does every point of `vs` lie on the non-positive side of the oriented
plane through the `i`-th, `j`-th and `k`-th vertices? -/
def hullFaceTest (vs : List Vector) (i j k : ℕ) : Bool :=
  vs.all (fun p =>
    decide (orient3d (vs.getD i Vector.zero) (vs.getD j Vector.zero)
      (vs.getD k Vector.zero) p ≤ 0))

/-- Modelled from the spec: the convex-hull computation performed when a
`ConvexPolyhedron` has no index buffer lives in the native engine
(`RawShape`), absent from `src/`. Spec §4.1: a real, deterministic 3D
convex-hull computation over the input vertices. Modelled by face
enumeration: an index triple `i < j < k` is a hull face when every input
point lies on one closed side of its plane; the face is emitted with the
orientation that puts the point cloud on the non-positive side. -/
def convexHullFaces (vs : List Vector) : List (ℕ × ℕ × ℕ) :=
  (List.range vs.length).flatMap (fun i =>
    (List.range vs.length).flatMap (fun j =>
      (List.range vs.length).filterMap (fun k =>
        if i < j ∧ j < k then
          if hullFaceTest vs i j k then some (i, j, k)
          else if hullFaceTest vs i k j then some (i, k, j)
          else none
        else none)))

/-- Modelled from the spec: the native `RawShape` type and the bodies of the
`intoRaw` methods are not under `src/` (only their declarations). Spec §6
fixes the conversion contract as the logical field mapping from descriptor
to native value, so the native value is modelled as a tagged union carrying
exactly the descriptor fields (with hull faces computed for index-free
convex polyhedra). -/
inductive RawShape where
  | ball (radius : ℚ)
  | cuboid (halfExtents : Vector)
  | roundCuboid (halfExtents : Vector) (borderRadius : ℚ)
  | capsule (halfHeight radius : ℚ)
  | segment (a b : Vector)
  | triangle (a b c : Vector)
  | roundTriangle (a b c : Vector) (borderRadius : ℚ)
  | polyline (vertices : List ℚ) (indices : List ℕ)
  | trimesh (vertices : List ℚ) (indices : List ℕ)
  | convexMesh (vertices : List Vector) (indices : List ℕ)
  | convexHull (vertices : List Vector) (faces : List (ℕ × ℕ × ℕ))
  | roundConvexMesh (vertices : List Vector) (indices : List ℕ) (borderRadius : ℚ)
  | roundConvexHull (vertices : List Vector) (faces : List (ℕ × ℕ × ℕ))
      (borderRadius : ℚ)
  | heightfield (nrows ncols : ℕ) (heights : List ℚ) (scale : Vector)
  | cylinder (halfHeight radius : ℚ)
  | roundCylinder (halfHeight radius borderRadius : ℚ)
  | cone (halfHeight radius : ℚ)
  | roundCone (halfHeight radius borderRadius : ℚ)
deriving DecidableEq, Repr

/-- `Ball.intoRaw`. -/
def Ball.intoRaw (s : Ball) : RawShape := .ball s.radius

/-- `Cuboid.intoRaw`. -/
def Cuboid.intoRaw (s : Cuboid) : RawShape := .cuboid s.halfExtents

/-- `RoundCuboid.intoRaw`. -/
def RoundCuboid.intoRaw (s : RoundCuboid) : RawShape :=
  .roundCuboid s.halfExtents s.borderRadius

/-- `Capsule.intoRaw`. -/
def Capsule.intoRaw (s : Capsule) : RawShape := .capsule s.halfHeight s.radius

/-- `Segment.intoRaw`. -/
def Segment.intoRaw (s : Segment) : RawShape := .segment s.a s.b

/-- `Triangle.intoRaw`. -/
def Triangle.intoRaw (s : Triangle) : RawShape := .triangle s.a s.b s.c

/-- `RoundTriangle.intoRaw`. -/
def RoundTriangle.intoRaw (s : RoundTriangle) : RawShape :=
  .roundTriangle s.a s.b s.c s.borderRadius

/-- `Polyline.intoRaw`. -/
def Polyline.intoRaw (s : Polyline) : RawShape := .polyline s.vertices s.indices

/-- `TriMesh.intoRaw`. -/
def TriMesh.intoRaw (s : TriMesh) : RawShape := .trimesh s.vertices s.indices

/-- `ConvexPolyhedron.intoRaw`: with an index buffer the mesh is passed
through as-is; without one the convex hull of the vertices is computed
(spec §4.1). -/
def ConvexPolyhedron.intoRaw (s : ConvexPolyhedron) : RawShape :=
  match s.indices with
  | some idx => .convexMesh s.vertices idx
  | none => .convexHull s.vertices (convexHullFaces s.vertices)

/-- `RoundConvexPolyhedron.intoRaw`. -/
def RoundConvexPolyhedron.intoRaw (s : RoundConvexPolyhedron) : RawShape :=
  match s.indices with
  | some idx => .roundConvexMesh s.vertices idx s.borderRadius
  | none => .roundConvexHull s.vertices (convexHullFaces s.vertices) s.borderRadius

/-- `Heightfield.intoRaw`. -/
def Heightfield.intoRaw (s : Heightfield) : RawShape :=
  .heightfield s.nrows s.ncols s.heights s.scale

/-- `Cylinder.intoRaw`. -/
def Cylinder.intoRaw (s : Cylinder) : RawShape := .cylinder s.halfHeight s.radius

/-- `RoundCylinder.intoRaw`. -/
def RoundCylinder.intoRaw (s : RoundCylinder) : RawShape :=
  .roundCylinder s.halfHeight s.radius s.borderRadius

/-- `Cone.intoRaw`. -/
def Cone.intoRaw (s : Cone) : RawShape := .cone s.halfHeight s.radius

/-- `RoundCone.intoRaw`. -/
def RoundCone.intoRaw (s : RoundCone) : RawShape :=
  .roundCone s.halfHeight s.radius s.borderRadius

/-- Reading a `Ball` descriptor back from a native value. -/
def RawShape.toBall : RawShape → Option Ball
  | .ball radius => some ⟨radius⟩
  | _ => none

/-- Reading a `Cuboid` descriptor back from a native value. -/
def RawShape.toCuboid : RawShape → Option Cuboid
  | .cuboid halfExtents => some ⟨halfExtents⟩
  | _ => none

/-- Reading a `RoundCuboid` descriptor back from a native value. -/
def RawShape.toRoundCuboid : RawShape → Option RoundCuboid
  | .roundCuboid halfExtents borderRadius => some ⟨halfExtents, borderRadius⟩
  | _ => none

/-- Reading a `Capsule` descriptor back from a native value. -/
def RawShape.toCapsule : RawShape → Option Capsule
  | .capsule halfHeight radius => some ⟨radius, halfHeight⟩
  | _ => none

/-- Reading a `Segment` descriptor back from a native value. -/
def RawShape.toSegment : RawShape → Option Segment
  | .segment a b => some ⟨a, b⟩
  | _ => none

/-- Reading a `Triangle` descriptor back from a native value. -/
def RawShape.toTriangle : RawShape → Option Triangle
  | .triangle a b c => some ⟨a, b, c⟩
  | _ => none

/-- Reading a `RoundTriangle` descriptor back from a native value. -/
def RawShape.toRoundTriangle : RawShape → Option RoundTriangle
  | .roundTriangle a b c borderRadius => some ⟨a, b, c, borderRadius⟩
  | _ => none

/-- Reading a `Cylinder` descriptor back from a native value. -/
def RawShape.toCylinder : RawShape → Option Cylinder
  | .cylinder halfHeight radius => some ⟨radius, halfHeight⟩
  | _ => none

/-- Reading a `RoundCylinder` descriptor back from a native value. -/
def RawShape.toRoundCylinder : RawShape → Option RoundCylinder
  | .roundCylinder halfHeight radius borderRadius =>
      some ⟨radius, halfHeight, borderRadius⟩
  | _ => none

/-- Reading a `Cone` descriptor back from a native value. -/
def RawShape.toCone : RawShape → Option Cone
  | .cone halfHeight radius => some ⟨radius, halfHeight⟩
  | _ => none

/-- Reading a `RoundCone` descriptor back from a native value. -/
def RawShape.toRoundCone : RawShape → Option RoundCone
  | .roundCone halfHeight radius borderRadius =>
      some ⟨radius, halfHeight, borderRadius⟩
  | _ => none

/-- Modelled from the spec: the body of the `Heightfield` constructor is
not under `src/` (only its declaration, `shape.d.ts` lines 281-310). Spec
§7/§8: a `heights` array whose length differs from `nrows * ncols` is
rejected at construction with `InvalidGeometry`, and no partial object is
returned. -/
def Heightfield.make (nrows ncols : ℕ) (heights : List ℚ) (scale : Vector) :
    Except PhysicsError Heightfield :=
  if heights.length = nrows * ncols then
    .ok ⟨nrows, ncols, heights, scale⟩
  else
    .error .InvalidGeometry

/-- The arbitrary candidate vector not parallel to the axis: the `y` unit
vector when the axis lies on the `x` axis, the `x` unit vector otherwise. -/
def autoTangentCandidate (axis : Vector) : Vector :=
  if axis.y = 0 ∧ axis.z = 0 then ⟨0, 1, 0⟩ else ⟨1, 0, 0⟩

/-- One Gram-Schmidt step: the component of `c` orthogonal to `axis`. -/
def gramSchmidt (c axis : Vector) : Vector :=
  ⟨c.x - Vector.dot c axis / Vector.dot axis axis * axis.x,
   c.y - Vector.dot c axis / Vector.dot axis axis * axis.y,
   c.z - Vector.dot c axis / Vector.dot axis axis * axis.z⟩

/-- Modelled from the spec: the automatic orthonormal-basis completion for a
zero prismatic tangent happens in the native engine (`RawJointParams`),
absent from `src/`. Spec §4.2: pick an arbitrary vector not parallel to the
axis, then Gram-Schmidt against it. -/
def autoTangent (axis : Vector) : Vector :=
  gramSchmidt (autoTangentCandidate axis) axis

/-- The first tangent used by the native conversion of a prismatic
descriptor: the stored tangent when non-zero, the automatically completed
basis vector otherwise (spec §4.2). -/
def JointParams.rawTangent1 (p : JointParams) : Vector :=
  if p.tangent1 = Vector.zero then autoTangent p.axis1 else p.tangent1

/-- A concrete regular-tetrahedron-like vertex list used to instantiate the
convex-hull conversion. -/
def tetraVertices : List Vector := [⟨0, 0, 0⟩, ⟨1, 0, 0⟩, ⟨0, 1, 0⟩, ⟨0, 0, 1⟩]

/-! ## Theorems -/

/-- Looking up a handle after filtering out every entry with that handle
yields nothing: removal really removes the backing entry. -/
theorem lookup_filter_ne_self (h : JointHandle) (l : List (JointHandle × RawJoint)) :
    (l.filter (fun e => e.1 != h)).lookup h = none := by
  induction l with
  | nil => rfl
  | cons e es ih =>
    by_cases he : e.1 = h
    · simp [List.filter_cons, he, ih]
    · simp only [List.filter_cons]
      rw [if_pos (by simpa using he)]
      simp only [List.lookup]
      have hbe : (h == e.1) = false := by simpa using Ne.symm he
      rw [hbe]
      exact ih

/-- A non-zero vector has non-zero dot product with itself. -/
theorem dot_self_ne_zero (v : Vector) (h : v ≠ Vector.zero) : Vector.dot v v ≠ 0 := by
  intro h0
  apply h
  simp only [Vector.dot] at h0
  have hx : v.x = 0 :=
    mul_self_eq_zero.mp (by nlinarith [mul_self_nonneg v.y, mul_self_nonneg v.z])
  have hy : v.y = 0 :=
    mul_self_eq_zero.mp (by nlinarith [mul_self_nonneg v.x, mul_self_nonneg v.z])
  have hz : v.z = 0 :=
    mul_self_eq_zero.mp (by nlinarith [mul_self_nonneg v.x, mul_self_nonneg v.y])
  cases v
  simp_all [Vector.zero]

/-- The Gram-Schmidt step produces a vector orthogonal to the axis. -/
theorem dot_gramSchmidt_eq_zero (c axis : Vector) (hq : Vector.dot axis axis ≠ 0) :
    Vector.dot axis (gramSchmidt c axis) = 0 := by
  simp only [Vector.dot, gramSchmidt] at *
  field_simp
  ring

/-- The automatically completed tangent of a non-zero axis is itself
non-zero: the candidate is never parallel to the axis, so its orthogonal
component survives. -/
theorem autoTangent_ne_zero (axis : Vector) (h : axis ≠ Vector.zero) :
    autoTangent axis ≠ Vector.zero := by
  have hq : Vector.dot axis axis ≠ 0 := dot_self_ne_zero axis h
  unfold autoTangent autoTangentCandidate gramSchmidt
  by_cases hc : axis.y = 0 ∧ axis.z = 0
  · rw [if_pos hc]
    obtain ⟨hy, hz⟩ := hc
    intro heq
    simp only [Vector.zero, Vector.mk.injEq, Vector.dot] at heq
    obtain ⟨h1, h2, h3⟩ := heq
    rw [hy, hz] at h2
    norm_num at h2
  · rw [if_neg hc]
    intro heq
    simp only [Vector.zero, Vector.mk.injEq, Vector.dot] at heq
    obtain ⟨h1, h2, h3⟩ := heq
    have hkne : (1 * axis.x + 0 * axis.y + 0 * axis.z) /
        (axis.x * axis.x + axis.y * axis.y + axis.z * axis.z) ≠ 0 := by
      intro hk0
      rw [hk0] at h1
      norm_num at h1
    have hy : axis.y = 0 := by
      have h2' : (1 * axis.x + 0 * axis.y + 0 * axis.z) /
          (axis.x * axis.x + axis.y * axis.y + axis.z * axis.z) * axis.y = 0 := by
        linarith [h2]
      rcases mul_eq_zero.mp h2' with hk | hy
      · exact absurd hk hkne
      · exact hy
    have hz : axis.z = 0 := by
      have h3' : (1 * axis.x + 0 * axis.y + 0 * axis.z) /
          (axis.x * axis.x + axis.y * axis.y + axis.z * axis.z) * axis.z = 0 := by
        linarith [h3]
      rcases mul_eq_zero.mp h3' with hk | hz
      · exact absurd hk hkne
      · exact hz
    exact hc ⟨hy, hz⟩

/-- C1: after a live joint's backing entry is removed from the joint set,
`isValid()` returns `false`, and every other accessor (`bodyHandle1`,
`bodyHandle2`, `type`, `frameX1`, `frameX2`, `anchor1`, `anchor2`, `axis1`,
`axis2`, `limitsEnabled`, `limitsMin`, `limitsMax`) fails with a
`StaleHandle` condition rather than returning stale or default data. -/
theorem removed_joint_accessors_stale (s : RawJointSet) (j : Joint) :
    Joint.isValid (s.remove j.handle) j = false ∧
    Joint.bodyHandle1 (s.remove j.handle) j = .error .StaleHandle ∧
    Joint.bodyHandle2 (s.remove j.handle) j = .error .StaleHandle ∧
    Joint.type (s.remove j.handle) j = .error .StaleHandle ∧
    Joint.frameX1 (s.remove j.handle) j = .error .StaleHandle ∧
    Joint.frameX2 (s.remove j.handle) j = .error .StaleHandle ∧
    Joint.anchor1 (s.remove j.handle) j = .error .StaleHandle ∧
    Joint.anchor2 (s.remove j.handle) j = .error .StaleHandle ∧
    Joint.axis1 (s.remove j.handle) j = .error .StaleHandle ∧
    Joint.axis2 (s.remove j.handle) j = .error .StaleHandle ∧
    Joint.limitsEnabled (s.remove j.handle) j = .error .StaleHandle ∧
    Joint.limitsMin (s.remove j.handle) j = .error .StaleHandle ∧
    Joint.limitsMax (s.remove j.handle) j = .error .StaleHandle := by
  have hnone : (s.remove j.handle).lookup j.handle = none :=
    lookup_filter_ne_self j.handle s.entries
  have hres : Joint.resolve (s.remove j.handle) j = .error .StaleHandle := by
    unfold Joint.resolve
    rw [hnone]
  refine ⟨?_, ?_, ?_, ?_, ?_, ?_, ?_, ?_, ?_, ?_, ?_, ?_, ?_⟩
  · unfold Joint.isValid RawJointSet.contains
    rw [hnone]
    rfl
  all_goals
    simp [Joint.bodyHandle1, Joint.bodyHandle2, Joint.type, Joint.frameX1,
      Joint.frameX2, Joint.anchor1, Joint.anchor2, Joint.axis1, Joint.axis2,
      Joint.limitsEnabled, Joint.limitsMin, Joint.limitsMax, hres, Except.map]

/-- C2 (code bug evaluation): the `Shape` union type of `shape.d.ts` line 6
has fourteen members and omits `Polyline` and `RoundTriangle`, even though
both classes are declared in the same file and both appear in the file's
own `ShapeType` enum; every union member is among the sixteen variants the
spec lists. -/
theorem shape_union_omits_polyline_and_roundTriangle :
    ShapeClass.Polyline ∉ shapeUnionMembers ∧
    ShapeClass.RoundTriangle ∉ shapeUnionMembers ∧
    (ShapeClass.Polyline, 4) ∈ shapeTypeEnum ∧
    (ShapeClass.RoundTriangle, 13) ∈ shapeTypeEnum ∧
    shapeUnionMembers.length = 14 ∧
    specShapeVariants.length = 16 ∧
    (∀ c ∈ shapeUnionMembers, c ∈ specShapeVariants) := by decide

/-- C3: each of the four `JointParams` constructors tags the descriptor
with the corresponding joint type, copies exactly the physically
meaningful arguments into their fields, and leaves every remaining field
at its neutral default: zero vectors for unused anchors, axes and
tangents, identity rotation for unused frames, and limits disabled. -/
theorem jointParams_constructors_package_meaningful_fields :
    (∀ a1 a2 : Vector,
      (JointParams.ball a1 a2).jointType = JointType.Ball ∧
      (JointParams.ball a1 a2).anchor1 = a1 ∧
      (JointParams.ball a1 a2).anchor2 = a2 ∧
      (JointParams.ball a1 a2).axis1 = Vector.zero ∧
      (JointParams.ball a1 a2).axis2 = Vector.zero ∧
      (JointParams.ball a1 a2).tangent1 = Vector.zero ∧
      (JointParams.ball a1 a2).tangent2 = Vector.zero ∧
      (JointParams.ball a1 a2).frame1 = Rotation.identity ∧
      (JointParams.ball a1 a2).frame2 = Rotation.identity ∧
      (JointParams.ball a1 a2).limitsEnabled = false) ∧
    (∀ (a1 : Vector) (f1 : Rotation) (a2 : Vector) (f2 : Rotation),
      (JointParams.fixed a1 f1 a2 f2).jointType = JointType.Fixed ∧
      (JointParams.fixed a1 f1 a2 f2).anchor1 = a1 ∧
      (JointParams.fixed a1 f1 a2 f2).anchor2 = a2 ∧
      (JointParams.fixed a1 f1 a2 f2).frame1 = f1 ∧
      (JointParams.fixed a1 f1 a2 f2).frame2 = f2 ∧
      (JointParams.fixed a1 f1 a2 f2).axis1 = Vector.zero ∧
      (JointParams.fixed a1 f1 a2 f2).axis2 = Vector.zero ∧
      (JointParams.fixed a1 f1 a2 f2).tangent1 = Vector.zero ∧
      (JointParams.fixed a1 f1 a2 f2).tangent2 = Vector.zero ∧
      (JointParams.fixed a1 f1 a2 f2).limitsEnabled = false) ∧
    (∀ a1 ax1 t1 a2 ax2 t2 : Vector,
      (JointParams.prismatic a1 ax1 t1 a2 ax2 t2).jointType = JointType.Prismatic ∧
      (JointParams.prismatic a1 ax1 t1 a2 ax2 t2).anchor1 = a1 ∧
      (JointParams.prismatic a1 ax1 t1 a2 ax2 t2).axis1 = ax1 ∧
      (JointParams.prismatic a1 ax1 t1 a2 ax2 t2).tangent1 = t1 ∧
      (JointParams.prismatic a1 ax1 t1 a2 ax2 t2).anchor2 = a2 ∧
      (JointParams.prismatic a1 ax1 t1 a2 ax2 t2).axis2 = ax2 ∧
      (JointParams.prismatic a1 ax1 t1 a2 ax2 t2).tangent2 = t2 ∧
      (JointParams.prismatic a1 ax1 t1 a2 ax2 t2).frame1 = Rotation.identity ∧
      (JointParams.prismatic a1 ax1 t1 a2 ax2 t2).frame2 = Rotation.identity ∧
      (JointParams.prismatic a1 ax1 t1 a2 ax2 t2).limitsEnabled = false) ∧
    (∀ a1 ax1 a2 ax2 : Vector,
      (JointParams.revolute a1 ax1 a2 ax2).jointType = JointType.Revolute ∧
      (JointParams.revolute a1 ax1 a2 ax2).anchor1 = a1 ∧
      (JointParams.revolute a1 ax1 a2 ax2).axis1 = ax1 ∧
      (JointParams.revolute a1 ax1 a2 ax2).anchor2 = a2 ∧
      (JointParams.revolute a1 ax1 a2 ax2).axis2 = ax2 ∧
      (JointParams.revolute a1 ax1 a2 ax2).tangent1 = Vector.zero ∧
      (JointParams.revolute a1 ax1 a2 ax2).tangent2 = Vector.zero ∧
      (JointParams.revolute a1 ax1 a2 ax2).frame1 = Rotation.identity ∧
      (JointParams.revolute a1 ax1 a2 ax2).frame2 = Rotation.identity ∧
      (JointParams.revolute a1 ax1 a2 ax2).limitsEnabled = false) := by
  refine ⟨fun a1 a2 => ?_, fun a1 f1 a2 f2 => ?_,
    fun a1 ax1 t1 a2 ax2 t2 => ?_, fun a1 ax1 a2 ax2 => ?_⟩ <;>
    exact ⟨rfl, rfl, rfl, rfl, rfl, rfl, rfl, rfl, rfl, rfl⟩

/-- C4: converting a primitive shape descriptor to the native
representation and reading the fields back yields every field of the
original descriptor, exactly. -/
theorem primitive_shape_roundtrip (r hx hy hz hh br : ℚ) (a b c : Vector) :
    (Ball.make r).intoRaw.toBall = some (Ball.make r) ∧
    (Cuboid.make hx hy hz).intoRaw.toCuboid = some (Cuboid.make hx hy hz) ∧
    (RoundCuboid.make hx hy hz br).intoRaw.toRoundCuboid =
      some (RoundCuboid.make hx hy hz br) ∧
    (Capsule.make hh r).intoRaw.toCapsule = some (Capsule.make hh r) ∧
    (Segment.make a b).intoRaw.toSegment = some (Segment.make a b) ∧
    (Triangle.make a b c).intoRaw.toTriangle = some (Triangle.make a b c) ∧
    (RoundTriangle.make a b c br).intoRaw.toRoundTriangle =
      some (RoundTriangle.make a b c br) ∧
    (Cylinder.make hh r).intoRaw.toCylinder = some (Cylinder.make hh r) ∧
    (RoundCylinder.make hh r br).intoRaw.toRoundCylinder =
      some (RoundCylinder.make hh r br) ∧
    (Cone.make hh r).intoRaw.toCone = some (Cone.make hh r) ∧
    (RoundCone.make hh r br).intoRaw.toRoundCone = some (RoundCone.make hh r br) :=
  ⟨rfl, rfl, rfl, rfl, rfl, rfl, rfl, rfl, rfl, rfl, rfl⟩

/-- C5 (counterexample): `limits` and `limitsEnabled` are plain public
mutable fields, so assigning `limits = [1, -1]` on a prismatic descriptor
with `limitsEnabled = true` succeeds - no `InvalidGeometry` error - and
produces a descriptor violating `limits[0] <= limits[1]`. -/
theorem limits_assignment_unvalidated_cex :
    ((((JointParams.prismatic Vector.zero ⟨1, 0, 0⟩ Vector.zero Vector.zero
        ⟨1, 0, 0⟩ Vector.zero).setLimitsEnabledField true).setLimitsField
        [1, -1]).limitsEnabled = true) ∧
    ((((JointParams.prismatic Vector.zero ⟨1, 0, 0⟩ Vector.zero Vector.zero
        ⟨1, 0, 0⟩ Vector.zero).setLimitsEnabledField true).setLimitsField
        [1, -1]).limits = [1, -1]) ∧
    ¬ (((((JointParams.prismatic Vector.zero ⟨1, 0, 0⟩ Vector.zero Vector.zero
        ⟨1, 0, 0⟩ Vector.zero).setLimitsEnabledField true).setLimitsField
        [1, -1]).limits.getD 0 0) ≤
       ((((JointParams.prismatic Vector.zero ⟨1, 0, 0⟩ Vector.zero Vector.zero
        ⟨1, 0, 0⟩ Vector.zero).setLimitsEnabledField true).setLimitsField
        [1, -1]).limits.getD 1 0)) := by
  refine ⟨rfl, rfl, ?_⟩
  decide

/-- C5 (amended): all four public constructors produce descriptors with
limits disabled - so the invariant holds vacuously for freshly constructed
descriptors - while assignment to the public `limits` and `limitsEnabled`
fields stores the given value unvalidated. -/
theorem limits_constructors_disabled_assignment_unchecked :
    (∀ a1 a2 : Vector, (JointParams.ball a1 a2).limitsEnabled = false) ∧
    (∀ (a1 : Vector) (f1 : Rotation) (a2 : Vector) (f2 : Rotation),
      (JointParams.fixed a1 f1 a2 f2).limitsEnabled = false) ∧
    (∀ a1 ax1 t1 a2 ax2 t2 : Vector,
      (JointParams.prismatic a1 ax1 t1 a2 ax2 t2).limitsEnabled = false) ∧
    (∀ a1 ax1 a2 ax2 : Vector,
      (JointParams.revolute a1 ax1 a2 ax2).limitsEnabled = false) ∧
    (∀ (p : JointParams) (l : List ℚ), (p.setLimitsField l).limits = l) ∧
    (∀ (p : JointParams) (b : Bool), (p.setLimitsEnabledField b).limitsEnabled = b) :=
  ⟨fun _ _ => rfl, fun _ _ _ _ => rfl, fun _ _ _ _ _ _ => rfl, fun _ _ _ _ => rfl,
   fun _ _ => rfl, fun _ _ => rfl⟩

/-- C6: converting a `ConvexPolyhedron` (or `RoundConvexPolyhedron`) with
no index buffer computes the convex hull of the vertices, and the
conversion is deterministic: two calls on identical vertex input yield
identical native output. -/
theorem convex_hull_conversion_deterministic (vs1 vs2 : List Vector) (br : ℚ)
    (h : vs1 = vs2) :
    ConvexPolyhedron.intoRaw ⟨vs1, none⟩ =
      RawShape.convexHull vs1 (convexHullFaces vs1) ∧
    ConvexPolyhedron.intoRaw ⟨vs1, none⟩ = ConvexPolyhedron.intoRaw ⟨vs2, none⟩ ∧
    RoundConvexPolyhedron.intoRaw ⟨vs1, none, br⟩ =
      RoundConvexPolyhedron.intoRaw ⟨vs2, none, br⟩ := by
  subst h
  exact ⟨rfl, rfl, rfl⟩

/-- Witness for C6: the determinism theorem instantiated at a concrete
tetrahedron vertex list. -/
theorem convex_hull_conversion_deterministic_witness :
    tetraVertices = tetraVertices ∧
    (ConvexPolyhedron.intoRaw ⟨tetraVertices, none⟩ =
      RawShape.convexHull tetraVertices (convexHullFaces tetraVertices) ∧
    ConvexPolyhedron.intoRaw ⟨tetraVertices, none⟩ =
      ConvexPolyhedron.intoRaw ⟨tetraVertices, none⟩ ∧
    RoundConvexPolyhedron.intoRaw ⟨tetraVertices, none, 1⟩ =
      RoundConvexPolyhedron.intoRaw ⟨tetraVertices, none, 1⟩) :=
  ⟨rfl, convex_hull_conversion_deterministic tetraVertices tetraVertices 1 rfl⟩

/-- C7: for every non-zero axis, a prismatic descriptor built with a zero
first tangent gets an automatically computed tangent that is exactly
orthogonal to the axis and non-degenerate; the computation is a pure
function of the axis, hence deterministic. -/
theorem prismatic_zero_tangent_orthogonal_basis (a1 a2 ax2 t2 axis : Vector)
    (h : axis ≠ Vector.zero) :
    Vector.dot axis
      (JointParams.rawTangent1
        (JointParams.prismatic a1 axis Vector.zero a2 ax2 t2)) = 0 ∧
    JointParams.rawTangent1
      (JointParams.prismatic a1 axis Vector.zero a2 ax2 t2) ≠ Vector.zero := by
  have hq : Vector.dot axis axis ≠ 0 := dot_self_ne_zero axis h
  have hr : JointParams.rawTangent1
      (JointParams.prismatic a1 axis Vector.zero a2 ax2 t2) = autoTangent axis := by
    unfold JointParams.rawTangent1
    have ht : (JointParams.prismatic a1 axis Vector.zero a2 ax2 t2).tangent1 =
        Vector.zero := rfl
    have ha : (JointParams.prismatic a1 axis Vector.zero a2 ax2 t2).axis1 = axis := rfl
    rw [ht, ha, if_pos rfl]
  rw [hr]
  exact ⟨dot_gramSchmidt_eq_zero (autoTangentCandidate axis) axis hq,
    autoTangent_ne_zero axis h⟩

/-- Witness for C7: the orthogonality theorem instantiated at the three
axis-aligned unit axes. -/
theorem prismatic_zero_tangent_orthogonal_basis_witness :
    ((⟨1, 0, 0⟩ : Vector) ≠ Vector.zero ∧
      (Vector.dot ⟨1, 0, 0⟩
        (JointParams.rawTangent1
          (JointParams.prismatic Vector.zero ⟨1, 0, 0⟩ Vector.zero Vector.zero
            Vector.zero Vector.zero)) = 0 ∧
      JointParams.rawTangent1
        (JointParams.prismatic Vector.zero ⟨1, 0, 0⟩ Vector.zero Vector.zero
          Vector.zero Vector.zero) ≠ Vector.zero)) ∧
    ((⟨0, 1, 0⟩ : Vector) ≠ Vector.zero ∧
      (Vector.dot ⟨0, 1, 0⟩
        (JointParams.rawTangent1
          (JointParams.prismatic Vector.zero ⟨0, 1, 0⟩ Vector.zero Vector.zero
            Vector.zero Vector.zero)) = 0 ∧
      JointParams.rawTangent1
        (JointParams.prismatic Vector.zero ⟨0, 1, 0⟩ Vector.zero Vector.zero
          Vector.zero Vector.zero) ≠ Vector.zero)) ∧
    ((⟨0, 0, 1⟩ : Vector) ≠ Vector.zero ∧
      (Vector.dot ⟨0, 0, 1⟩
        (JointParams.rawTangent1
          (JointParams.prismatic Vector.zero ⟨0, 0, 1⟩ Vector.zero Vector.zero
            Vector.zero Vector.zero)) = 0 ∧
      JointParams.rawTangent1
        (JointParams.prismatic Vector.zero ⟨0, 0, 1⟩ Vector.zero Vector.zero
          Vector.zero Vector.zero) ≠ Vector.zero)) :=
  ⟨⟨by decide, prismatic_zero_tangent_orthogonal_basis Vector.zero Vector.zero
      Vector.zero Vector.zero ⟨1, 0, 0⟩ (by decide)⟩,
   ⟨by decide, prismatic_zero_tangent_orthogonal_basis Vector.zero Vector.zero
      Vector.zero Vector.zero ⟨0, 1, 0⟩ (by decide)⟩,
   ⟨by decide, prismatic_zero_tangent_orthogonal_basis Vector.zero Vector.zero
      Vector.zero Vector.zero ⟨0, 0, 1⟩ (by decide)⟩⟩

/-- C8: constructing a heightfield whose `heights` length differs from
`nrows * ncols` is rejected with `InvalidGeometry`; the `Except` result
carries no partial descriptor. -/
theorem heightfield_length_mismatch_rejected (nrows ncols : ℕ) (heights : List ℚ)
    (scale : Vector) (h : heights.length ≠ nrows * ncols) :
    Heightfield.make nrows ncols heights scale = .error .InvalidGeometry := by
  unfold Heightfield.make
  rw [if_neg h]

/-- Witness for C8: a 2 by 2 heightfield with only three heights is
rejected. -/
theorem heightfield_length_mismatch_rejected_witness :
    ([0, 1, 2] : List ℚ).length ≠ 2 * 2 ∧
    Heightfield.make 2 2 [0, 1, 2] ⟨1, 1, 1⟩ = .error .InvalidGeometry :=
  ⟨by decide,
   heightfield_length_mismatch_rejected 2 2 [0, 1, 2] ⟨1, 1, 1⟩ (by decide)⟩

/-- C9: the `Capsule`, `Cylinder`, `Cone`, `RoundCylinder` and `RoundCone`
constructors take `halfHeight` as the first argument and `radius` as the
second - opposite to the radius-then-halfHeight field order - so the object
built from `(h, r)` has `halfHeight = h` and `radius = r`. -/
theorem half_height_radius_constructor_arg_order (h r br : ℚ) :
    (Capsule.make h r).halfHeight = h ∧ (Capsule.make h r).radius = r ∧
    (Cylinder.make h r).halfHeight = h ∧ (Cylinder.make h r).radius = r ∧
    (Cone.make h r).halfHeight = h ∧ (Cone.make h r).radius = r ∧
    (RoundCylinder.make h r br).halfHeight = h ∧
    (RoundCylinder.make h r br).radius = r ∧
    (RoundCone.make h r br).halfHeight = h ∧
    (RoundCone.make h r br).radius = r :=
  ⟨rfl, rfl, rfl, rfl, rfl, rfl, rfl, rfl, rfl, rfl⟩

/-- C10: every `JointParams` descriptor reachable through the public
interface - the four static constructors, the only producers since the
class constructor is private - has `jointType` equal to one of the four
`JointType` enum values. -/
theorem reachable_jointType_one_of_four (p : JointParams) (h : p.Reachable) :
    p.jointType = JointType.Ball ∨ p.jointType = JointType.Fixed ∨
      p.jointType = JointType.Prismatic ∨ p.jointType = JointType.Revolute := by
  cases h with
  | ball a1 a2 => exact Or.inl rfl
  | fixed a1 f1 a2 f2 => exact Or.inr (Or.inl rfl)
  | prismatic a1 ax1 t1 a2 ax2 t2 => exact Or.inr (Or.inr (Or.inl rfl))
  | revolute a1 ax1 a2 ax2 => exact Or.inr (Or.inr (Or.inr rfl))

/-- Witness for C10: the reachability theorem instantiated at a concrete
ball-joint descriptor. -/
theorem reachable_jointType_one_of_four_witness :
    (JointParams.ball Vector.zero Vector.zero).Reachable ∧
    ((JointParams.ball Vector.zero Vector.zero).jointType = JointType.Ball ∨
     (JointParams.ball Vector.zero Vector.zero).jointType = JointType.Fixed ∨
     (JointParams.ball Vector.zero Vector.zero).jointType = JointType.Prismatic ∨
     (JointParams.ball Vector.zero Vector.zero).jointType = JointType.Revolute) :=
  ⟨JointParams.Reachable.ball Vector.zero Vector.zero,
   reachable_jointType_one_of_four (JointParams.ball Vector.zero Vector.zero)
     (JointParams.Reachable.ball Vector.zero Vector.zero)⟩

end Rapier
